import Mathlib

/-!
Verification of the turn-taking controller in `wrapped_grok.py` (class
`WrappedGrok`).  The Python methods relevant to the claims are shallowly
embedded as executable Lean functions: pure string processing is translated
directly, stateful code is translated to explicit state passing, network and
audio collaborators become explicit environment parameters, and the
concurrently-updated `interrupt_speech` flag is modelled by a schedule of the
values returned by the successive reads of the flag.
-/

namespace WrappedGrok

/-! ### Python string primitives

Helpers mirroring the exact Python string operations used by the source
(`str.split()`, `' '.join`, slicing `s[:n]`, `in` substring test,
`str.lower()`, `str.strip()`).  All are structurally recursive so that the
kernel can evaluate them on concrete inputs. -/

/-- Helper for `pySplit`: walks the character list accumulating the current
word (reversed); mirrors Python `str.split()` with no separator, which splits
on runs of whitespace and never yields empty words. -/
def splitWsGo : List Char → List Char → List String
  | [], acc => if acc.isEmpty then [] else [String.mk acc.reverse]
  | c :: cs, acc =>
    if c.isWhitespace then
      if acc.isEmpty then splitWsGo cs []
      else String.mk acc.reverse :: splitWsGo cs []
    else splitWsGo cs (c :: acc)

/-- Python `s.split()` (no argument): split on whitespace runs, no empties. -/
def pySplit (s : String) : List String := splitWsGo s.toList []

/-- Python `sep.join(parts)`. -/
def pyJoin (sep : String) : List String → String
  | [] => ""
  | [x] => x
  | x :: y :: xs => x ++ sep ++ pyJoin sep (y :: xs)

/-- Python slice `s[:n]` (first `n` characters). -/
def pySlice (s : String) (n : Nat) : String := String.mk (s.toList.take n)

/-- Python `s.lower()` (ASCII case folding, which is what the source's
inputs use). -/
def lowerStr (s : String) : String := String.mk (s.toList.map Char.toLower)

/-- Boolean test that `p` is a prefix of the character list `l`. -/
def charsHasPre : List Char → List Char → Bool
  | [], _ => true
  | _ :: _, [] => false
  | a :: as, b :: bs => a == b && charsHasPre as bs

/-- Boolean test that `p` occurs as a contiguous sublist of `l`. -/
def charsHasSub (p : List Char) : List Char → Bool
  | [] => p.isEmpty
  | c :: rest => charsHasPre p (c :: rest) || charsHasSub p rest

/-- Python `pat in s` substring containment. -/
def strContains (s pat : String) : Bool := charsHasSub pat.toList s.toList

/-- Python `s.strip()`: drop leading and trailing whitespace. -/
def pyStrip (s : String) : String :=
  String.mk (((s.toList.dropWhile Char.isWhitespace).reverse.dropWhile
      Char.isWhitespace).reverse)

/-- Python `range(start, stop, -1)` over naturals: the descending list
`[start, start-1, ..., stop+1]` (empty when `start ≤ stop`). -/
def pyRangeDown (start stop : Nat) : List Nat :=
  (List.range (start - stop)).map (fun k => start - k)

/-! ### Response Shaper: `_limit_response_length` (wrapped_grok.py lines
469-504).  Returns the shaped reply together with the violation messages
logged by the call (the source logs via `self._log_violation`). -/

/-- Test whether the last character of a word is `.`, `!` or `?`
(Python `words[i][-1] in '.!?'`). -/
def endsPunct (w : String) : Bool :=
  match w.toList.getLast? with
  | some c => c == '.' || c == '!' || c == '?'
  | none => false

/-- Embedding of `WrappedGrok._limit_response_length(response, user_input)`.
`maxWords` is `self.max_response_words` and `explainKeyword` is the stored
`self.explain_keyword` (lowercased by `__init__`).  Returns the result string
and the list of violation messages logged during the call. -/
def limit_response_length (maxWords : Nat) (explainKeyword : String)
    (response userInput : String) : String × List String :=
  if strContains (lowerStr userInput) explainKeyword then (response, [])
  else
    let words := pySplit response
    if words.length > maxWords then
      let truncatedWords := words.take maxWords
      let originalTruncated := pyJoin " " truncatedWords
      let truncated1 :=
        match (pyRangeDown (min maxWords words.length - 1)
            (max 0 (maxWords - 5))).find? (fun i => endsPunct (words.getD i "")) with
        | some i => pyJoin " " (words.take (i + 1))
        | none => originalTruncated
      let truncated2 :=
        if (pySplit truncated1).length > maxWords then
          if !endsPunct originalTruncated then originalTruncated ++ "..."
          else originalTruncated
        else truncated1
      (truncated2,
        ["Response truncated: " ++ toString words.length ++ " words -> " ++
          toString (pySplit truncated2).length ++ " words"])
    else (response, [])

/-! ### Context Augmenter: `_extract_factual_claims` (lines 306-325)

The source matches four `re` patterns (with `re.IGNORECASE`) against each
sentence obtained from `re.split(r'[.!?]+', text)`.  The patterns are
translated into decidable character-list predicates; `\b` is the regex word
boundary (word characters are `[A-Za-z0-9_]`, the ASCII reading of `\w`),
`\s` is whitespace and `\d` a decimal digit. -/

/-- Regex `\w` word character (ASCII): letter, digit or underscore. -/
def isWordChar (c : Char) : Bool := c.isAlphanum || c == '_'

/-- Regex word boundary `\b` immediately before position `i`, where `first`
is the character the pattern would match at `i`: the word-character statuses
on the two sides of the position differ (out of bounds counts as non-word). -/
def boundaryBefore (cs : List Char) (i : Nat) (first : Char) : Bool :=
  let prevWord := if i == 0 then false else isWordChar (cs.getD (i - 1) ' ')
  prevWord != isWordChar first

/-- Literal match of `lit` at position `i` of `cs`. -/
def matchLit (cs : List Char) (i : Nat) (lit : List Char) : Bool :=
  charsHasPre lit (cs.drop i)

/-- Regex `\s+\w+` anchored at the head of `cs`: at least one whitespace
character followed by a word character. -/
def spacesThenWord : List Char → Bool
  | [] => false
  | c :: rest =>
    c.isWhitespace &&
      (match rest.dropWhile Char.isWhitespace with
       | d :: _ => isWordChar d
       | [] => false)

/-- Regex search for `\b\d{4}\b` (a four-digit year). -/
def hasYear (cs : List Char) : Bool :=
  (List.range cs.length).any fun i =>
    (cs.getD i ' ').isDigit && (cs.getD (i + 1) ' ').isDigit &&
    (cs.getD (i + 2) ' ').isDigit && (cs.getD (i + 3) ' ').isDigit &&
    boundaryBefore cs i (cs.getD i ' ') &&
    !isWordChar (cs.getD (i + 4) ' ')

/-- Regex search for `\b(is|was|are|were)\s+\w+`. -/
def hasCopula (cs : List Char) : Bool :=
  (List.range cs.length).any fun i =>
    ["is", "was", "are", "were"].any fun w =>
      matchLit cs i w.toList &&
      boundaryBefore cs i (cs.getD i ' ') &&
      spacesThenWord (cs.drop (i + w.toList.length))

/-- Regex search for `\b(according to|studies show|research indicates)`. -/
def hasCitation (cs : List Char) : Bool :=
  (List.range cs.length).any fun i =>
    ["according to", "studies show", "research indicates"].any fun w =>
      matchLit cs i w.toList && boundaryBefore cs i (cs.getD i ' ')

/-- Regex search for `\b(percent|percentage|\%)`. -/
def hasPercent (cs : List Char) : Bool :=
  (List.range cs.length).any fun i =>
    ["percent", "percentage", "%"].any fun w =>
      matchLit cs i w.toList && boundaryBefore cs i (cs.getD i ' ')

/-- Whether a sentence matches at least one of the four claim patterns.
`re.IGNORECASE` is modelled by lowercasing the sentence first, which is
equivalent for these ASCII patterns. -/
def sentenceHasClaim (sentence : String) : Bool :=
  let cs := (lowerStr sentence).toList
  hasYear cs || hasCopula cs || hasCitation cs || hasPercent cs

/-- Embedding of `re.split(r'[.!?]+', text)`: splits on maximal nonempty runs
of sentence punctuation, keeping leading/trailing empty fields (exactly the
Python `re.split` result).  The Boolean state records whether we are
currently inside a separator run. -/
def splitRunsGo (p : Char → Bool) : List Char → Bool → List Char → List String
  | [], skipping, acc =>
    if skipping then [""] else [String.mk acc.reverse]
  | c :: cs, skipping, acc =>
    if skipping then
      if p c then splitRunsGo p cs true []
      else splitRunsGo p cs false [c]
    else
      if p c then String.mk acc.reverse :: splitRunsGo p cs true []
      else splitRunsGo p cs false (c :: acc)

/-- Split a string on maximal runs of `.`, `!`, `?`. -/
def splitSentences (s : String) : List String :=
  splitRunsGo (fun c => c == '.' || c == '!' || c == '?') s.toList false []

/-- Embedding of `WrappedGrok._extract_factual_claims(text)`: every sentence
matching at least one pattern is kept (stripped), in order. -/
def extract_factual_claims (text : String) : List String :=
  (splitSentences text).filterMap fun sentence =>
    if sentenceHasClaim sentence then some (pyStrip sentence) else none

/-! ### Context Augmenter: `_search_web` (lines 260-304)

The SerpAPI collaborator is an environment parameter.  `answer_box` models
`"answer_box" in results and results["answer_box"]` as an `Option` (absent or
falsy → `none`); an organic result carries the `title` and `snippet` fields
(`result.get(..., "")`). -/

structure AnswerBox where
  answer : String
  snippet : String
deriving DecidableEq

structure OrganicResult where
  title : String
  snippet : String
deriving DecidableEq

structure SearchResults where
  answer_box : Option AnswerBox
  organic_results : List OrganicResult
deriving DecidableEq

/-- Outcome of `search.get_dict()`: a result dictionary, or a raised
exception carrying its message. -/
inductive SearchOutcome where
  | ok (r : SearchResults)
  | err (msg : String)

/-- Python `results["answer_box"].get("answer", "") or
results["answer_box"].get("snippet", "")`. -/
def answerOf : Option AnswerBox → String
  | none => ""
  | some ab => if ab.answer ≠ "" then ab.answer else ab.snippet

/-- The up-to-three `"title: snippet"` parts built from the organic results
(results with an empty snippet are skipped). -/
def organicParts (rs : List OrganicResult) : List String :=
  (rs.take 3).filterMap fun o =>
    if o.snippet ≠ "" then some (o.title ++ ": " ++ o.snippet) else none

/-- Context assembly of `_search_web` after a successful collaborator call
(lines 276-300).  Note the faithful control flow: the combined context is
returned only from inside the `organic_results` branch, so a result set with
a direct answer but no organic results yields `none`. -/
def buildContext (r : SearchResults) : Option String :=
  let ans := answerOf r.answer_box
  let parts0 := if ans ≠ "" then ["Direct answer: " ++ ans] else []
  if r.organic_results.isEmpty then none
  else
    let parts := parts0 ++ organicParts r.organic_results
    if parts.isEmpty then none else some (pyJoin " | " parts)

/-- Return value of the `_search_web` embedding: the optional context, the
violations logged by the call, and the queries actually sent to the
collaborator. -/
structure SearchRet where
  context : Option String
  violations : List String
  webCalls : List String
deriving DecidableEq

/-- Embedding of `WrappedGrok._search_web(query)`.  `serpAvailable` models
`GoogleSearch is not None`; `collab` is the SerpAPI collaborator. -/
def search_web (serpAvailable : Bool) (collab : String → SearchOutcome)
    (query : String) : SearchRet :=
  if !serpAvailable then
    ⟨none, ["Web search attempted but SerpAPI not installed"], []⟩
  else
    match collab query with
    | .err e => ⟨none, ["Web search failed: " ++ e], [query]⟩
    | .ok r => ⟨buildContext r, [], [query]⟩

/-! ### Completion Client: `_query_grok` (lines 327-467)

One HTTP attempt per model name is abstracted as `send : String → ReqOutcome`
(the request body differs only in the `model` field, so within one
`_query_grok` call the outcome is a function of the model name).  A `.resp`
is a returned HTTP response; on status 200 the source extracts
`result["choices"][0]["message"]["content"]`, which the embedding abstracts
as the response body.  An `.exc` is an exception raised by the attempt,
classified exactly as the source's `except` clauses do. -/

/-- Exception raised by a request attempt, in the order the source's
`except` clauses match them: `requests.exceptions.ConnectionError`,
`requests.exceptions.Timeout`, `requests.exceptions.RequestException`, or
any other exception (carrying `type(e).__name__` and `str(e)`). -/
inductive ExcKind where
  | connError (msg : String)
  | timeout (msg : String)
  | reqExc (msg : String)
  | other (excName msg : String)
deriving DecidableEq

/-- Outcome of one `requests.post` attempt. -/
inductive ReqOutcome where
  | resp (status : Nat) (body : String)
  | exc (k : ExcKind)
deriving DecidableEq

/-- How the model-fallback loop (lines 384-416) ended. -/
inductive LoopExit where
  | success (model body : String)
  | broke (status : Nat) (body : String)
  | raised (k : ExcKind)
  | exhausted (last : Option (Nat × String))
deriving DecidableEq

/-- The 400-body test of line 410: `"model" in error_text and ("invalid" in
error_text or "not found" in error_text)` on the lowercased body. -/
def modelNotFound (body : String) : Bool :=
  strContains (lowerStr body) "model" &&
    (strContains (lowerStr body) "invalid" || strContains (lowerStr body) "not found")

/-- The model fallback loop of `_query_grok` (lines 384-416): returns the
list of models actually attempted and the way the loop ended.  `last` is the
`last_response` variable.  Faithful control flow: status 200 returns, status
400 continues on a model-not-found body and breaks otherwise, and any other
status falls through to the next iteration (there is no `else` branch). -/
def runModels (send : String → ReqOutcome) :
    List String → Option (Nat × String) → List String × LoopExit
  | [], last => ([], .exhausted last)
  | m :: rest, _ =>
    match send m with
    | .exc k => ([m], .raised k)
    | .resp st body =>
      if st == 200 then ([m], .success m body)
      else if st == 400 then
        if modelNotFound body then
          let r := runModels send rest (some (st, body))
          (m :: r.1, r.2)
        else ([m], .broke st body)
      else
        let r := runModels send rest (some (st, body))
        (m :: r.1, r.2)

/-- The hardcoded fallback list of line 381. -/
def model_names : List String :=
  ["grok-3", "grok-beta", "grok-2", "grok-vision-beta", "grok"]

/-- The API endpoint of line 84. -/
def grok_api_url : String := "https://api.x.ai/v1/chat/completions"

/-- Python truthiness of a recorded `requests.Response` (line 419
`if last_response:`): `Response.__bool__` is `self.ok`, which is true exactly
when the status code is below 400.  A recorded last response with status 400
or above is therefore falsy, and the classification-and-logging block of
lines 420-445 is skipped for it. -/
def respTruthy (st : Nat) : Bool := decide (st < 400)

/-- Stopping condition of the model-fallback loop as the code actually
implements it: an attempt stops the fallback iff it raises an exception,
returns HTTP 200, or returns HTTP 400 without a model-not-available body.
Any other status (401, 404, 429, 5xx, ...) does NOT stop the loop. -/
def stopsFallback (send : String → ReqOutcome) (m : String) : Bool :=
  match send m with
  | .exc _ => true
  | .resp st body => st == 200 || (st == 400 && !modelNotFound body)

/-- Error classification block after the loop (lines 420-445), given the
last response.  It runs only when `if last_response:` (line 419) is truthy,
i.e. when `respTruthy` holds of the last status.  `parse400` abstracts
`last_response.json()` on the 400 branch: `some msg` is the extracted
`error.error` message (defaulting to "Invalid request" when keys are
missing), `none` means the parse raised. -/
def classifyLast (apiKey : String) (parse400 : String → Option String)
    (st : Nat) (body : String) : String :=
  let errorText := lowerStr body
  let apiKeyPreview := if apiKey.length > 10 then pySlice apiKey 5 ++ "..." else "***"
  if apiKey == "your-grok-api-key-here" ||
      strContains (lowerStr apiKey) "your-grok-api-key" then
    "Error: Grok API key not set. Edit .env file and add your API key from https://console.x.ai"
  else if st == 401 || strContains errorText "api key" ||
      strContains errorText "unauthorized" then
    "Error: Invalid Grok API key (" ++ apiKeyPreview ++
      "). Get a valid key from https://console.x.ai"
  else if st == 400 then
    match parse400 body with
    | some msg => "Error: " ++ msg ++ ". Check API key and model availability."
    | none => "Error: Invalid request (400). Response: " ++ pySlice body 200
  else if st == 404 then
    "Error: API endpoint not found. URL: " ++ grok_api_url
  else if st == 429 then
    "Error: Rate limit exceeded. Wait a moment and try again."
  else
    "Error: Grok API returned " ++ toString st ++ ": " ++ pySlice body 200

/-- Result message and violation message of the four `except` handlers
(lines 448-467). -/
def excResult : ExcKind → String × String
  | .connError msg =>
    ("Error: Cannot connect to Grok API at " ++ grok_api_url ++
        ". Check your internet connection.",
      "Grok API connection error: " ++ msg)
  | .timeout msg =>
    ("Error: Grok API request timed out. The service may be slow or unavailable.",
      "Grok API timeout: " ++ msg)
  | .reqExc msg =>
    ("Error: Network error connecting to Grok API: " ++ msg,
      "Grok API request error: " ++ msg)
  | .other excName msg =>
    ("Error: Unexpected error with Grok API: " ++ excName ++ ": " ++ msg,
      "Grok API unexpected error: " ++ excName ++ ": " ++ msg)

/-- Return value of the `_query_grok` embedding: the returned string, the
violations logged by the call, the models attempted, and whether the call
succeeded (returned a model reply rather than an error message). -/
structure GrokRet where
  result : String
  violations : List String
  attempted : List String
  ok : Bool
deriving DecidableEq

/-- Embedding of `WrappedGrok._query_grok(user_input, context)`.  The
`context` only alters the request payload, which `send` abstracts, so it does
not appear as a parameter.  Note line 419: `if last_response:` is requests
truthiness (`respTruthy`, status below 400), not a `None` test, so a
terminal response with status 400 or above skips the classification block —
no violation is logged and the generic no-response message of line 447 is
returned. -/
def query_grok (apiKey : String) (parse400 : String → Option String)
    (send : String → ReqOutcome) : GrokRet :=
  if apiKey == "" || apiKey == "your-grok-api-key-here" then
    ⟨"Error: Grok API key not set. Edit .env file and add your API key from https://console.x.ai",
      ["Grok API key not configured"], [], false⟩
  else
    match runModels send model_names none with
    | (att, .success _ body) => ⟨body, [], att, true⟩
    | (att, .raised k) => ⟨(excResult k).1, [(excResult k).2], att, false⟩
    | (att, .broke st body) =>
      if respTruthy st then
        ⟨classifyLast apiKey parse400 st body,
          ["Grok API error: " ++ toString st], att, false⟩
      else
        ⟨"Error: Could not get response from Grok (no response received)", [], att, false⟩
    | (att, .exhausted (some (st, body))) =>
      if respTruthy st then
        ⟨classifyLast apiKey parse400 st body,
          ["Grok API error: " ++ toString st], att, false⟩
      else
        ⟨"Error: Could not get response from Grok (no response received)", [], att, false⟩
    | (att, .exhausted none) =>
      ⟨"Error: Could not get response from Grok (no response received)", [], att, false⟩

/-! ### Turn Controller: `process_input` (lines 658-700) -/

/-- Environment of one `process_input` call: the configuration fields of the
controller and the behaviour of each collaborator.  `interruptDuringWait`
models whether `self.interrupt_speech` becomes true during the silence wait
(`_wait_for_silence`, lines 244-258, returns `False` exactly in that case). -/
structure PEnv where
  interruptDuringWait : Bool
  serpAvailable : Bool
  collab : String → SearchOutcome
  apiKey : String
  parse400 : String → Option String
  send : String → ReqOutcome
  maxWords : Nat
  explainKeyword : String

/-- Observable result of one `process_input` call: the returned string, the
violations logged during the call in order, the queries sent to the search
collaborator, and how many times claim extraction and the completion client
ran. -/
structure PRet where
  response : String
  violations : List String
  webCalls : List String
  augmenterCalls : Nat
  grokCalls : Nat
deriving DecidableEq

/-- The search query chosen by `process_input` (lines 678-686): the first
extracted claim truncated to 150 characters if any claim was found, else the
raw input truncated to 150 characters. -/
def searchQueryFor (input : String) : String :=
  match extract_factual_claims input with
  | [] => pySlice input 150
  | c :: _ => pySlice c 150

/-- Embedding of `WrappedGrok.process_input(user_input)`. -/
def process_input (env : PEnv) (input : String) : PRet :=
  if env.interruptDuringWait then
    ⟨"Interrupted", ["Response generated without silence timeout"], [], 0, 0⟩
  else
    let sret := search_web env.serpAvailable env.collab (searchQueryFor input)
    let g := query_grok env.apiKey env.parse400 env.send
    let shaped := limit_response_length env.maxWords env.explainKeyword g.result input
    ⟨shaped.1, sret.violations ++ g.violations ++ shaped.2, sret.webCalls, 1, 1⟩

/-! ### Speech Player: the system-TTS chunk loop of `_speak_text`
(lines 570-617)

The loop speaks 5-word chunks and polls `self.interrupt_speech`, which the
Speech Interruption Monitor writes concurrently.  The concurrency is
modelled by numbering the successive reads of the flag and letting an
environment schedule (`flagAt`) give the value returned by each read;
`pollsFor i` is the number of polling iterations of the inner
`while proc.poll() is None` loop for chunk `i` before the `say` process ends
(by finishing or by the 3-second safety kill, neither of which reads the
flag).  Per chunk the reads are, in source order: the check before starting
the chunk (line 577), one read per inner polling iteration (line 597), the
`if not self.interrupt_speech` guard of `proc.wait` (line 608), and the
bottom-of-loop check (line 615). -/

structure PlayEnv where
  flagAt : Nat → Bool
  pollsFor : Nat → Nat

/-- Observable outcome of the chunk loop: the chunks whose `say` process was
started, whether an in-flight chunk was killed because a poll saw the
interruption flag, and the final value of `self.speaking` (set to `False`
on line 618 after the loop, and on line 633 in the exception handler). -/
structure PlayResult where
  started : List String
  killedInFlight : Bool
  finalSpeaking : Bool
deriving DecidableEq

/-- One pass of the `for i in range(0, len(words), chunk_size)` loop over the
remaining chunks.  `i` is the chunk index (for `pollsFor`) and `t` the index
of the next flag read. -/
def playChunks (env : PlayEnv) : List String → Nat → Nat → PlayResult
  | [], _, _ => ⟨[], false, false⟩
  | c :: rest, i, t =>
    if env.flagAt t then ⟨[], false, false⟩
    else
      let m := env.pollsFor i
      match (List.range m).find? (fun j => env.flagAt (t + 1 + j)) with
      | some j =>
        if env.flagAt (t + 3 + j) then ⟨[c], true, false⟩
        else
          let r := playChunks env rest (i + 1) (t + 4 + j)
          ⟨c :: r.started, true, r.finalSpeaking⟩
      | none =>
        if env.flagAt (t + 2 + m) then ⟨[c], false, false⟩
        else
          let r := playChunks env rest (i + 1) (t + 3 + m)
          ⟨c :: r.started, r.killedInFlight, r.finalSpeaking⟩

/-- Fuel-indexed 5-word chunking of the word list (lines 572-575,
`' '.join(words[i:i+chunk_size])`).  The fuel only bounds the recursion;
`chunkWords` passes the list length, which always suffices because each step
consumes at least one word. -/
def chunkWordsGo : Nat → List String → List String
  | _, [] => []
  | 0, _ => []
  | fuel + 1, ws => pyJoin " " (ws.take 5) :: chunkWordsGo fuel (ws.drop 5)

/-- The chunks spoken for `text` by the system-TTS path. -/
def chunkWords (text : String) : List String :=
  chunkWordsGo (pySplit text).length (pySplit text)

/-- Run of the system-TTS path of `_speak_text` on `text` under the read
schedule `env`. -/
def speakSys (env : PlayEnv) (text : String) : PlayResult :=
  playChunks env (chunkWords text) 0 0

/-- Monotonicity of a read schedule: once a read of `interrupt_speech`
returns true, every later read returns true (the flag is never reset during
a session; claim C3). -/
def MonoSched (env : PlayEnv) : Prop :=
  ∀ a b : Nat, a ≤ b → env.flagAt a = true → env.flagAt b = true

/-! ### Speech session flags: `speaking` / `interrupt_speech`
(lines 144-145, 176-206, 506-509, 618)

A session starts when `_speak_text` runs lines 508-509 (`speaking = True;
interrupt_speech = False`).  During the session the flags are written by the
Speech Interruption Monitor callback `_interruption_callback` (each
invocation checked-and-writes under the guard of line 181) and by the player
finishing (`speaking = False`).  Each callback invocation is modelled as one
atomic event; `detected` tells whether the invocation reached one of the
four `interrupt_speech = True` assignments (lines 190, 196, 201, 206). -/

structure SessionState where
  speaking : Bool
  interrupt_speech : Bool
deriving DecidableEq

inductive SEvent where
  | callbackDetect (detected : Bool)
  | endSession
deriving DecidableEq

/-- Session state after `_speak_text` lines 508-509. -/
def startSession : SessionState := ⟨true, false⟩

/-- One mid-session event.  The callback returns immediately when
`not self.speaking or self.interrupt_speech` (line 181); otherwise it sets
the flag iff it detected an interruption.  `endSession` is the player
setting `speaking = False`. -/
def sessionStep (s : SessionState) : SEvent → SessionState
  | .callbackDetect detected =>
    if !s.speaking || s.interrupt_speech then s
    else if detected then { s with interrupt_speech := true } else s
  | .endSession => { s with speaking := false }

/-- State after a sequence of mid-session events. -/
def runSession (s : SessionState) (evs : List SEvent) : SessionState :=
  evs.foldl sessionStep s

/-- Number of false→true transitions of `interrupt_speech` along a run. -/
def risingEdges : SessionState → List SEvent → Nat
  | _, [] => 0
  | s, e :: evs =>
    (if !s.interrupt_speech && (sessionStep s e).interrupt_speech then 1 else 0) +
      risingEdges (sessionStep s e) evs

/-! ### Violation log object model: `get_violations` (lines 716-718) and
`_log_violation` (lines 649-656)

`self.violations` is a Python list object and `get_violations` returns
`self.violations.copy()`: callers receive a fresh list object.  The claim is
about object identity, so the embedding uses an explicit store mapping
references to list contents; `nextRef` is the next fresh reference and
`logRef` the reference held in `self.violations`. -/

structure Violation where
  timestamp : Nat
  message : String
deriving DecidableEq

structure GrokStore where
  heap : Nat → List Violation
  nextRef : Nat
  logRef : Nat

/-- Embedding of `get_violations`: allocates a fresh list object holding a
copy of the log contents and returns its reference. -/
def get_violations (s : GrokStore) : Nat × GrokStore :=
  (s.nextRef,
    { s with
      heap := fun r => if r == s.nextRef then s.heap s.logRef else s.heap r,
      nextRef := s.nextRef + 1 })

/-- An arbitrary in-place mutation of the list object `r` by the caller. -/
def mutateList (r : Nat) (f : List Violation → List Violation)
    (s : GrokStore) : GrokStore :=
  { s with heap := fun q => if q == r then f (s.heap q) else s.heap q }

/-- Embedding of `_log_violation`: appends to the internal log in place. -/
def log_violation (ts : Nat) (msg : String) (s : GrokStore) : GrokStore :=
  mutateList s.logRef (fun l => l ++ [⟨ts, msg⟩]) s

/-! ### Helper lemmas -/

theorem toList_append (a b : String) : (a ++ b).toList = a.toList ++ b.toList := by
  cases a; cases b; rfl

theorem charsHasPre_refl_append (p l : List Char) : charsHasPre p (p ++ l) = true := by
  induction p with
  | nil => rfl
  | cons a as ih => simp [charsHasPre, ih]

theorem charsHasPre_mono (p l m : List Char) (h : charsHasPre p l = true) :
    charsHasPre p (l ++ m) = true := by
  induction p generalizing l with
  | nil => rfl
  | cons a as ih =>
    cases l with
    | nil => simp [charsHasPre] at h
    | cons b bs =>
      simp only [charsHasPre, Bool.and_eq_true] at h
      simp [charsHasPre, h.1, ih bs h.2]

theorem charsHasSub_of_mid (u p v : List Char) : charsHasSub p (u ++ (p ++ v)) = true := by
  induction u with
  | nil =>
    cases hp : p ++ v with
    | nil => simp_all [charsHasSub, List.append_eq_nil]
    | cons c rest => simp [charsHasSub, ← hp, charsHasPre_refl_append]
  | cons b bs ih => simp [charsHasSub, ih]

theorem strContains_mid (pre s suf : String) : strContains (pre ++ s ++ suf) s = true := by
  unfold strContains
  rw [toList_append, toList_append, List.append_assoc]
  exact charsHasSub_of_mid _ _ _

theorem charsHasPre_toList_append (p a b : String)
    (h : charsHasPre p.toList a.toList = true) :
    charsHasPre p.toList (a ++ b).toList = true := by
  rw [toList_append]; exact charsHasPre_mono _ _ _ h

theorem pySlice_len (s : String) (n : Nat) : (pySlice s n).length ≤ n := by
  have h : (pySlice s n).length = (s.toList.take n).length := rfl
  rw [h, List.length_take]
  exact min_le_left _ _

/-! ### Claim theorems -/

/-- Claim C5: if the interruption signal arrives during the silence wait,
`process_input` returns the sentinel "Interrupted", logs exactly the one
violation "Response generated without silence timeout", performs no claim
extraction, no search-collaborator call and no completion call. -/
theorem process_input_interrupted (env : PEnv) (input : String)
    (h : env.interruptDuringWait = true) :
    process_input env input =
      ⟨"Interrupted", ["Response generated without silence timeout"], [], 0, 0⟩ := by
  simp [process_input, h]

/-- Witness for C5 at a concrete environment and input. -/
theorem process_input_interrupted_witness :
    process_input
        ⟨true, true, fun _ => .err "x", "sk-abcdefghijk", fun _ => none,
          fun _ => .resp 200 "ok", 10, "explain"⟩ "hello" =
      ⟨"Interrupted", ["Response generated without silence timeout"], [], 0, 0⟩ :=
  process_input_interrupted _ "hello" rfl

/-- Claim C7: `_limit_response_length` returns the reply unchanged whenever
the triggering input contains the (case-insensitively matched) explain
keyword, and also whenever the reply has at most `maxWords` words.  The
stored keyword is `explain_keyword.lower()` as set by `__init__`, so the
keyword parameter appears as `lowerStr kw`. -/
theorem shape_unchanged (maxWords : Nat) (kw response input : String) :
    (strContains (lowerStr input) (lowerStr kw) = true →
      (limit_response_length maxWords (lowerStr kw) response input).1 = response) ∧
    ((pySplit response).length ≤ maxWords →
      (limit_response_length maxWords (lowerStr kw) response input).1 = response) := by
  constructor
  · intro h
    simp [limit_response_length, h]
  · intro h
    by_cases hkw : strContains (lowerStr input) (lowerStr kw) = true
    · simp [limit_response_length, hkw]
    · simp [limit_response_length, hkw, Nat.not_lt.mpr h]

/-- Witness for C7: a cased keyword in the input prevents truncation of a
long reply, and a short reply is returned unchanged. -/
theorem shape_unchanged_witness :
    strContains (lowerStr "please EXPLAIN everything") (lowerStr "Explain") = true ∧
    (limit_response_length 2 (lowerStr "Explain") "a b c d e"
        "please EXPLAIN everything").1 = "a b c d e" ∧
    (pySplit "a b").length ≤ 2 ∧
    (limit_response_length 2 (lowerStr "Explain") "a b" "hi").1 = "a b" :=
  ⟨by decide,
    (shape_unchanged 2 "Explain" "a b c d e" "please EXPLAIN everything").1 (by decide),
    by decide,
    (shape_unchanged 2 "Explain" "a b" "hi").2 (by decide)⟩

/-- Claim C4 (code bug): with `maxWords = 10`, an 11-word reply with no
terminal punctuation and an input without the explain keyword, the chosen
truncation does not end in `.`, `!` or `?`, yet no ellipsis is appended.
The `truncated += '...'` of line 498 sits inside the defensive branch
`len(truncated.split()) > self.max_response_words` (line 494), which can
never hold because the truncation is a join of at most `max_response_words`
whitespace-free words, so the ellipsis marker is never appended. -/
theorem shape_no_ellipsis_bug :
    (limit_response_length 10 "explain"
        "one two three four five six seven eight nine ten eleven" "what time is it").1 =
      "one two three four five six seven eight nine ten" ∧
    endsPunct "one two three four five six seven eight nine ten" = false ∧
    strContains "one two three four five six seven eight nine ten" "..." = false := by
  decide

/-- Claim C6: when the silence gate passes and the search collaborator is
available, exactly one search-collaborator call is made; its query is the
first extracted claim truncated to 150 characters if claim extraction found
any claim, else the raw input truncated to 150 characters, and it never
exceeds 150 characters. -/
theorem process_input_one_search (env : PEnv) (input : String)
    (h1 : env.interruptDuringWait = false) (h2 : env.serpAvailable = true) :
    (process_input env input).webCalls = [searchQueryFor input] ∧
    (searchQueryFor input).length ≤ 150 := by
  constructor
  · simp only [process_input, h1, Bool.false_eq_true, if_false]
    cases hc : env.collab (searchQueryFor input) <;>
      simp [search_web, h2, hc]
  · unfold searchQueryFor
    cases extract_factual_claims input <;> exact pySlice_len _ _

/-- Witness for C6 at a concrete environment and input (the input yields no
factual claims, so the raw input is the query). -/
theorem process_input_one_search_witness :
    (process_input
        ⟨false, true, fun _ => .err "x", "sk-abcdefghijk", fun _ => none,
          fun _ => .resp 200 "ok", 10, "explain"⟩ "hello").webCalls =
      [searchQueryFor "hello"] ∧
    (searchQueryFor "hello").length ≤ 150 :=
  process_input_one_search _ "hello" rfl rfl

/-- Claim C10: `get_violations` returns a fresh copy of the violation log.
The call leaves the log object unchanged, an arbitrary caller-side mutation
of the returned list object leaves the log unchanged, and a subsequent
`get_violations` still returns the original contents. -/
theorem get_violations_copy (s : GrokStore) (h : s.logRef < s.nextRef)
    (f : List Violation → List Violation) :
    ((get_violations s).2.heap s.logRef = s.heap s.logRef) ∧
    ((mutateList (get_violations s).1 f (get_violations s).2).heap s.logRef =
      s.heap s.logRef) ∧
    ((get_violations (mutateList (get_violations s).1 f (get_violations s).2)).2.heap
        (get_violations (mutateList (get_violations s).1 f (get_violations s).2)).1 =
      s.heap s.logRef) := by
  have hne : s.logRef ≠ s.nextRef := Nat.ne_of_lt h
  refine ⟨?_, ?_, ?_⟩ <;> simp [get_violations, mutateList, hne]

/-- Witness for C10 on a concrete store with an empty log and a mutation
that appends an entry to the returned copy. -/
theorem get_violations_copy_witness :
    (0 : Nat) < 1 ∧
    ((mutateList (get_violations ⟨fun _ => [], 1, 0⟩).1 (fun l => ⟨7, "x"⟩ :: l)
        (get_violations ⟨fun _ => [], 1, 0⟩).2).heap 0 = []) :=
  ⟨by decide,
    (get_violations_copy ⟨fun _ => [], 1, 0⟩ (by decide) (fun l => ⟨7, "x"⟩ :: l)).2.1⟩

/-- String append is associative (at the character-list level). -/
theorem strAppend_assoc (a b c : String) : a ++ b ++ c = a ++ (b ++ c) := by
  cases a; cases b; cases c
  exact congrArg String.mk (List.append_assoc _ _ _)

/-- String append with the empty string on the right. -/
theorem strAppend_empty (a : String) : a ++ "" = a := by
  cases a
  exact congrArg String.mk (List.append_nil _)

/-- Counterexample to claim C8 as stated: the collaborator succeeds and
returns a direct-answer snippet ("42"), yet `_search_web` returns `None`,
because the `return combined_context` of line 297 sits inside the
`organic_results` branch and here the organic-result list is empty. -/
theorem search_web_answer_box_lost :
    (search_web true (fun _ => .ok ⟨some ⟨"42", ""⟩, []⟩) "is it 42").context = none ∧
    answerOf (some ⟨"42", ""⟩) = "42" := by
  decide

/-- Claim C8 (amended): whenever the search collaborator succeeds with a
nonempty organic-result list and a direct-answer snippet, `_search_web`
returns a non-`None` context equal to the direct-answer part followed by the
up-to-three organic "title: snippet" pairs joined by " | ", and that context
contains the snippet.  (Without at least one organic result the context is
`None` even when a direct answer is present.) -/
theorem search_web_context_shape (collab : String → SearchOutcome) (q : String)
    (r : SearchResults) (hok : collab q = .ok r)
    (horg : r.organic_results ≠ [])
    (hans : answerOf r.answer_box ≠ "") :
    (search_web true collab q).context =
      some (pyJoin " | " (("Direct answer: " ++ answerOf r.answer_box) ::
        organicParts r.organic_results)) ∧
    strContains
      (pyJoin " | " (("Direct answer: " ++ answerOf r.answer_box) ::
        organicParts r.organic_results))
      (answerOf r.answer_box) = true := by
  constructor
  · have hne : ¬ r.organic_results.isEmpty := by
      simpa [List.isEmpty_iff] using horg
    simp [search_web, hok, buildContext, hans, hne]
  · cases hp : organicParts r.organic_results with
    | nil =>
      show strContains ("Direct answer: " ++ answerOf r.answer_box) _ = true
      have h := strContains_mid "Direct answer: " (answerOf r.answer_box) ""
      rwa [strAppend_empty] at h
    | cons y ys =>
      show strContains ("Direct answer: " ++ answerOf r.answer_box ++ " | " ++
        pyJoin " | " (y :: ys)) (answerOf r.answer_box) = true
      rw [strAppend_assoc ("Direct answer: " ++ answerOf r.answer_box) " | "
        (pyJoin " | " (y :: ys))]
      exact strContains_mid _ _ _

/-- Witness for C8 (amended) at a concrete collaborator outcome. -/
theorem search_web_context_shape_witness :
    (search_web true (fun _ => .ok ⟨some ⟨"42", ""⟩, [⟨"t1", "s1"⟩]⟩) "q").context =
      some (pyJoin " | " (("Direct answer: " ++ answerOf (some ⟨"42", ""⟩)) ::
        organicParts [⟨"t1", "s1"⟩])) :=
  (search_web_context_shape (fun _ => .ok ⟨some ⟨"42", ""⟩, [⟨"t1", "s1"⟩]⟩) "q"
    ⟨some ⟨"42", ""⟩, [⟨"t1", "s1"⟩]⟩ rfl (by decide) (by decide)).1

/-- Counterexample to claim C1 as stated: the first model receives an HTTP
401 authorization failure, which by the claim should stop the fallback
immediately, yet the loop attempts the second model (and succeeds there). -/
theorem query_grok_auth_continues :
    (fun m => if m == "grok-3" then ReqOutcome.resp 401 "unauthorized"
      else ReqOutcome.resp 200 "hi") "grok-3" = .resp 401 "unauthorized" ∧
    (query_grok "sk-abcdefghijk" (fun _ => none)
        (fun m => if m == "grok-3" then ReqOutcome.resp 401 "unauthorized"
          else ReqOutcome.resp 200 "hi")).attempted = ["grok-3", "grok-beta"] ∧
    (query_grok "sk-abcdefghijk" (fun _ => none)
        (fun m => if m == "grok-3" then ReqOutcome.resp 401 "unauthorized"
          else ReqOutcome.resp 200 "hi")).ok = true := by
  decide

/-- Claim C1 (amended): the fallback loop attempts the configured models
strictly in order and stops exactly at the first model whose attempt
succeeds (HTTP 200), raises (connection failure, timeout, other request
exception), or returns HTTP 400 without a model-not-available body; every
other HTTP response — including 401 authorization failures and any other
4xx/5xx — lets the loop continue with the next model. -/
theorem runModels_attempted (send : String → ReqOutcome) (models : List String)
    (last : Option (Nat × String)) :
    (runModels send models last).1 =
      match models.findIdx? (stopsFallback send) with
      | some i => models.take (i + 1)
      | none => models := by
  induction models generalizing last with
  | nil => rfl
  | cons m rest ih =>
    rw [List.findIdx?_cons]
    cases hm : send m with
    | exc k =>
      simp [runModels, hm, stopsFallback]
    | resp st body =>
      by_cases h200 : st = 200
      · simp [runModels, hm, stopsFallback, h200]
      · by_cases h400 : st = 400
        · by_cases hmnf : modelNotFound body = true
          · have hstop : stopsFallback send m = false := by
              simp [stopsFallback, hm, h200, hmnf]
            simp only [runModels, hm, h200, h400, hmnf, beq_iff_eq, if_false, if_true,
              reduceIte, hstop]
            rw [ih]
            cases hf : rest.findIdx? (stopsFallback send) <;>
              simp [hf, List.take_succ_cons]
          · have hstop : stopsFallback send m = true := by
              simp [stopsFallback, hm, h200, h400, hmnf]
            simp [runModels, hm, h200, h400, hmnf, hstop]
        · have hstop : stopsFallback send m = false := by
            simp [stopsFallback, hm, h200, h400]
          simp only [runModels, hm, beq_iff_eq, h200, h400, if_false, reduceIte, hstop]
          rw [ih]
          cases hf : rest.findIdx? (stopsFallback send) <;>
            simp [hf, List.take_succ_cons]

/-- Once `interrupt_speech` is true, no mid-session event resets it. -/
theorem sessionStep_mono (s : SessionState) (e : SEvent)
    (h : s.interrupt_speech = true) : (sessionStep s e).interrupt_speech = true := by
  cases e <;> simp [sessionStep, h]

/-- From a state with the flag already set, no further rising edge occurs. -/
theorem risingEdges_of_true (evs : List SEvent) :
    ∀ s : SessionState, s.interrupt_speech = true → risingEdges s evs = 0 := by
  induction evs with
  | nil => intro s _; rfl
  | cons e evs ih =>
    intro s h
    simp [risingEdges, h, ih _ (sessionStep_mono s e h)]

/-- The flag rises at most once along any run. -/
theorem risingEdges_le_one (evs : List SEvent) :
    ∀ s : SessionState, risingEdges s evs ≤ 1 := by
  induction evs with
  | nil => intro s; exact Nat.zero_le 1
  | cons e evs ih =>
    intro s
    by_cases hs : (sessionStep s e).interrupt_speech = true
    · have h0 : risingEdges (sessionStep s e) evs = 0 := risingEdges_of_true evs _ hs
      unfold risingEdges
      rw [h0]
      split <;> omega
    · unfold risingEdges
      have hbit : (!s.interrupt_speech && (sessionStep s e).interrupt_speech) = false := by
        cases hv : (sessionStep s e).interrupt_speech
        · simp
        · exact absurd hv hs
      rw [hbit]
      simpa using ih (sessionStep s e)

/-- Appending one event steps the run once. -/
theorem runSession_append (s : SessionState) (evs : List SEvent) (e : SEvent) :
    runSession s (evs ++ [e]) = sessionStep (runSession s evs) e := by
  simp [runSession, List.foldl_append]

/-- Claim C3: within one speech session, `interrupt_speech` transitions at
most once and only from false to true, is never reset mid-session (any
event after it became true leaves it true), and a false→true transition can
only be caused by an event whose pre-state has `speaking = true` (the
callback guard of line 181; callback invocations are modelled as atomic). -/
theorem session_flag_invariant (evs : List SEvent) (e : SEvent) :
    ((runSession startSession evs).interrupt_speech = true →
      (runSession startSession (evs ++ [e])).interrupt_speech = true) ∧
    risingEdges startSession evs ≤ 1 ∧
    ((runSession startSession evs).interrupt_speech = false →
      (sessionStep (runSession startSession evs) e).interrupt_speech = true →
      (runSession startSession evs).speaking = true) := by
  refine ⟨?_, risingEdges_le_one evs startSession, ?_⟩
  · intro h
    rw [runSession_append]
    exact sessionStep_mono _ e h
  · intro h1 h2
    cases e with
    | endSession =>
      exact absurd h2 (by simp [sessionStep, h1])
    | callbackDetect d =>
      by_cases hsp : (runSession startSession evs).speaking = true
      · exact hsp
      · have hsp' : (runSession startSession evs).speaking = false := by
          cases hv : (runSession startSession evs).speaking
          · rfl
          · exact absurd hv hsp
        exact absurd h2 (by simp [sessionStep, hsp', h1])

/-- Witness for C3: a run in which the flag rises once and the session then
ends; the rise is preserved and counted once. -/
theorem session_flag_invariant_witness :
    (runSession startSession [SEvent.callbackDetect true]).interrupt_speech = true ∧
    (runSession startSession ([SEvent.callbackDetect true] ++
      [SEvent.endSession])).interrupt_speech = true ∧
    risingEdges startSession [SEvent.callbackDetect true] ≤ 1 :=
  ⟨by decide,
    (session_flag_invariant [SEvent.callbackDetect true] SEvent.endSession).1 (by decide),
    (session_flag_invariant [SEvent.callbackDetect true] SEvent.endSession).2.1⟩

/-- Claim C2: under a monotone interruption schedule (the flag, once read
true, stays true — claim C3), the system-TTS chunk loop of `_speak_text`
starts no chunk once the flag is observed true at a chunk boundary, the
chunks actually started form a prefix of the chunk list, and `speaking` is
false when the session ends.  The statement is quantified over every entry
point `(cs, i, t)` of the loop, so it covers in particular every resumption
after an interruption became visible. -/
theorem playChunks_interrupt (env : PlayEnv) (hmono : MonoSched env) :
    ∀ (cs : List String) (i t : Nat),
      (playChunks env cs i t).finalSpeaking = false ∧
      (env.flagAt t = true → (playChunks env cs i t).started = []) ∧
      (∃ k, (playChunks env cs i t).started = cs.take k) := by
  intro cs
  induction cs with
  | nil => exact fun i t => ⟨rfl, fun _ => rfl, ⟨0, rfl⟩⟩
  | cons c rest ih =>
    intro i t
    by_cases h : env.flagAt t = true
    · refine ⟨?_, fun _ => ?_, ⟨0, ?_⟩⟩ <;> simp [playChunks, h]
    · have hnot : env.flagAt t = false := by
        cases hv : env.flagAt t
        · rfl
        · exact absurd hv h
      rcases hf : (List.range (env.pollsFor i)).find?
          (fun j => env.flagAt (t + 1 + j)) with _ | j
      · by_cases hb : env.flagAt (t + 2 + env.pollsFor i) = true
        · have hval : playChunks env (c :: rest) i t = ⟨[c], false, false⟩ := by
            simp [playChunks, hnot, hf, hb]
          rw [hval]
          exact ⟨rfl, fun habs => absurd habs h, ⟨1, rfl⟩⟩
        · have hb' : env.flagAt (t + 2 + env.pollsFor i) = false := by
            cases hv : env.flagAt (t + 2 + env.pollsFor i)
            · rfl
            · exact absurd hv hb
          have hval : playChunks env (c :: rest) i t =
              ⟨c :: (playChunks env rest (i + 1) (t + 3 + env.pollsFor i)).started,
                (playChunks env rest (i + 1) (t + 3 + env.pollsFor i)).killedInFlight,
                (playChunks env rest (i + 1) (t + 3 + env.pollsFor i)).finalSpeaking⟩ := by
            simp [playChunks, hnot, hf, hb']
          rw [hval]
          refine ⟨(ih (i + 1) (t + 3 + env.pollsFor i)).1,
            fun habs => absurd habs h, ?_⟩
          obtain ⟨k, hk⟩ := (ih (i + 1) (t + 3 + env.pollsFor i)).2.2
          exact ⟨k + 1, by rw [List.take_succ_cons, ← hk]⟩
      · have hj : env.flagAt (t + 1 + j) = true := by
          have hmem := List.find?_some hf
          simpa using hmem
        have hb : env.flagAt (t + 3 + j) = true :=
          hmono (t + 1 + j) (t + 3 + j) (by omega) hj
        have hval : playChunks env (c :: rest) i t = ⟨[c], true, false⟩ := by
          simp [playChunks, hnot, hf, hb]
        rw [hval]
        exact ⟨rfl, fun habs => absurd habs h, ⟨1, rfl⟩⟩

/-- Witness for C2: the flag becomes true from read 2 onward (a monotone
schedule); only the first chunk is started, it is killed in flight, and the
loop entered with the flag already set starts nothing. -/
theorem playChunks_interrupt_witness :
    (playChunks ⟨Nat.ble 2, fun _ => 2⟩ (chunkWords "a b c d e f g") 0 5).started = [] ∧
    (playChunks ⟨Nat.ble 2, fun _ => 2⟩ (chunkWords "a b c d e f g") 0 0).finalSpeaking
      = false :=
  ⟨(playChunks_interrupt ⟨Nat.ble 2, fun _ => 2⟩
      (fun a b hab h2 => by simp only [Nat.ble_eq] at h2 ⊢; omega)
      (chunkWords "a b c d e f g") 0 5).2.1 (by decide),
    (playChunks_interrupt ⟨Nat.ble 2, fun _ => 2⟩
      (fun a b hab h2 => by simp only [Nat.ble_eq] at h2 ⊢; omega)
      (chunkWords "a b c d e f g") 0 0).1⟩

theorem bool_not_true {b : Bool} (h : ¬ b = true) : b = false := by
  cases hv : b
  · rfl
  · exact absurd hv h

/-- Once `last_response` is set it stays set, so a loop that starts with a
recorded response cannot exhaust with `last = None`. -/
theorem runModels_exhausted_isSome (send : String → ReqOutcome) (models : List String) :
    ∀ x, (runModels send models (some x)).2 ≠ LoopExit.exhausted none := by
  induction models with
  | nil => intro x hx; simp [runModels] at hx
  | cons m rest ih =>
    intro x hx
    cases hm : send m with
    | exc k => simp [runModels, hm] at hx
    | resp st body =>
      by_cases h200 : st = 200
      · simp [runModels, hm, h200] at hx
      · by_cases h400 : st = 400
        · by_cases hmnf : modelNotFound body = true
          · simp [runModels, hm, h200, h400, hmnf] at hx
            exact ih (400, body) hx
          · simp [runModels, hm, h200, h400, hmnf] at hx
        · simp [runModels, hm, h200, h400] at hx
          exact ih (st, body) hx

/-- With a nonempty model list the loop never falls through with
`last_response = None`. -/
theorem runModels_not_exhausted_none (send : String → ReqOutcome)
    (models : List String) (h : models ≠ []) :
    (runModels send models none).2 ≠ LoopExit.exhausted none := by
  cases models with
  | nil => exact absurd rfl h
  | cons m rest =>
    intro hx
    cases hm : send m with
    | exc k => simp [runModels, hm] at hx
    | resp st body =>
      by_cases h200 : st = 200
      · simp [runModels, hm, h200] at hx
      · by_cases h400 : st = 400
        · by_cases hmnf : modelNotFound body = true
          · simp [runModels, hm, h200, h400, hmnf] at hx
            exact runModels_exhausted_isSome send rest (400, body) hx
          · simp [runModels, hm, h200, h400, hmnf] at hx
        · simp [runModels, hm, h200, h400] at hx
          exact runModels_exhausted_isSome send rest (st, body) hx

/-- Every branch of the post-loop classification produces a string starting
with "Error:". -/
theorem classifyLast_error (apiKey : String) (parse400 : String → Option String)
    (st : Nat) (body : String) :
    charsHasPre "Error:".toList (classifyLast apiKey parse400 st body).toList = true := by
  simp only [classifyLast]
  split_ifs <;>
    first
      | decide
      | (apply charsHasPre_toList_append
         decide)
      | (apply charsHasPre_toList_append
         apply charsHasPre_toList_append
         decide)
      | (apply charsHasPre_toList_append
         apply charsHasPre_toList_append
         apply charsHasPre_toList_append
         decide)
      | (cases parse400 body with
          | some msg =>
            apply charsHasPre_toList_append
            apply charsHasPre_toList_append
            decide
          | none =>
            apply charsHasPre_toList_append
            decide)

/-- Every exception handler produces a string starting with "Error:". -/
theorem excResult_error (k : ExcKind) :
    charsHasPre "Error:".toList (excResult k).1.toList = true := by
  cases k with
  | connError msg =>
    apply charsHasPre_toList_append
    decide
  | timeout msg =>
    show charsHasPre "Error:".toList
      "Error: Grok API request timed out. The service may be slow or unavailable.".toList
        = true
    decide
  | reqExc msg =>
    apply charsHasPre_toList_append
    decide
  | other excName msg =>
    apply charsHasPre_toList_append
    apply charsHasPre_toList_append
    apply charsHasPre_toList_append
    decide

/-- Classification of every `_query_grok` outcome: a success logs no
violation; every failure logs at most one violation and returns a string
starting with "Error:".  (The exact count per failure kind is stated in the
claim theorem below: terminal responses with status 400 or above log
nothing, by line 419 truthiness.) -/
theorem query_grok_classified (apiKey : String) (parse400 : String → Option String)
    (send : String → ReqOutcome) :
    ((query_grok apiKey parse400 send).ok = true →
      (query_grok apiKey parse400 send).violations = []) ∧
    ((query_grok apiKey parse400 send).ok = false →
      (query_grok apiKey parse400 send).violations.length ≤ 1 ∧
      charsHasPre "Error:".toList (query_grok apiKey parse400 send).result.toList
        = true) := by
  by_cases hkey : (apiKey == "" || apiKey == "your-grok-api-key-here") = true
  · have hval : query_grok apiKey parse400 send =
        ⟨"Error: Grok API key not set. Edit .env file and add your API key from https://console.x.ai",
          ["Grok API key not configured"], [], false⟩ := by
      simp [query_grok, hkey]
    rw [hval]
    exact ⟨fun habs => Bool.noConfusion habs, fun _ => ⟨by decide, by decide⟩⟩
  · have hkey2 : (apiKey == "" || apiKey == "your-grok-api-key-here") = false :=
      bool_not_true hkey
    rcases hrm : runModels send model_names none with ⟨att, ex⟩
    cases ex with
    | success m body =>
      have hval : query_grok apiKey parse400 send = ⟨body, [], att, true⟩ := by
        simp [query_grok, hkey2, hrm]
      rw [hval]
      exact ⟨fun _ => rfl, fun habs => Bool.noConfusion habs⟩
    | raised k =>
      have hval : query_grok apiKey parse400 send =
          ⟨(excResult k).1, [(excResult k).2], att, false⟩ := by
        simp [query_grok, hkey2, hrm]
      rw [hval]
      exact ⟨fun habs => Bool.noConfusion habs, fun _ => ⟨by simp, excResult_error k⟩⟩
    | broke st body =>
      by_cases ht : respTruthy st = true
      · have hval : query_grok apiKey parse400 send =
            ⟨classifyLast apiKey parse400 st body,
              ["Grok API error: " ++ toString st], att, false⟩ := by
          simp [query_grok, hkey2, hrm, ht]
        rw [hval]
        exact ⟨fun habs => Bool.noConfusion habs,
          fun _ => ⟨by simp, classifyLast_error apiKey parse400 st body⟩⟩
      · have ht2 : respTruthy st = false := bool_not_true ht
        have hval : query_grok apiKey parse400 send =
            ⟨"Error: Could not get response from Grok (no response received)",
              [], att, false⟩ := by
          simp [query_grok, hkey2, hrm, ht2]
        rw [hval]
        exact ⟨fun habs => Bool.noConfusion habs, fun _ =>
          ⟨Nat.zero_le 1, by
            show charsHasPre "Error:".toList
              "Error: Could not get response from Grok (no response received)".toList
                = true
            decide⟩⟩
    | exhausted last =>
      cases last with
      | none =>
        have hval : query_grok apiKey parse400 send =
            ⟨"Error: Could not get response from Grok (no response received)",
              [], att, false⟩ := by
          simp [query_grok, hkey2, hrm]
        rw [hval]
        exact ⟨fun habs => Bool.noConfusion habs, fun _ =>
          ⟨Nat.zero_le 1, by
            show charsHasPre "Error:".toList
              "Error: Could not get response from Grok (no response received)".toList
                = true
            decide⟩⟩
      | some p =>
        obtain ⟨st, body⟩ := p
        by_cases ht : respTruthy st = true
        · have hval : query_grok apiKey parse400 send =
              ⟨classifyLast apiKey parse400 st body,
                ["Grok API error: " ++ toString st], att, false⟩ := by
            simp [query_grok, hkey2, hrm, ht]
          rw [hval]
          exact ⟨fun habs => Bool.noConfusion habs,
            fun _ => ⟨by simp, classifyLast_error apiKey parse400 st body⟩⟩
        · have ht2 : respTruthy st = false := bool_not_true ht
          have hval : query_grok apiKey parse400 send =
              ⟨"Error: Could not get response from Grok (no response received)",
                [], att, false⟩ := by
            simp [query_grok, hkey2, hrm, ht2]
          rw [hval]
          exact ⟨fun habs => Bool.noConfusion habs, fun _ =>
          ⟨Nat.zero_le 1, by
            show charsHasPre "Error:".toList
              "Error: Could not get response from Grok (no response received)".toList
                = true
            decide⟩⟩

/-- Counterexample to claim C9 as stated: every model receives an HTTP 401
authorization response, so the completion call fails — yet zero violations
are recorded rather than exactly one, and the generic no-response message is
returned.  Line 419 `if last_response:` is requests truthiness (status below
400), the 401 last response is falsy, and the classification-and-logging
block of lines 420-445 is skipped. -/
theorem query_grok_http_failure_no_violation :
    (query_grok "sk-abcdefghijk" (fun _ => none)
      (fun _ => ReqOutcome.resp 401 "unauthorized")).ok = false ∧
    (query_grok "sk-abcdefghijk" (fun _ => none)
      (fun _ => ReqOutcome.resp 401 "unauthorized")).violations = [] := by
  decide

/-- Claim C9 (amended): once the silence gate passes, `process_input`
returns the shaped `_query_grok` string (the embedding is a total function
of the collaborator outcomes, so nothing is raised past the boundary), every
failure returns a string starting with "Error:" and logs at most one
violation, and a success logs none.  The count per failure path follows line
419's requests truthiness: an unconfigured key or a raised exception
(connection failure, timeout, other request exception, unexpected
exception) logs exactly one violation; a terminal HTTP response with status
below 400 logs exactly one; a terminal HTTP response with status 400 or
above — authorization failures and all other 4xx/5xx — logs none and yields
the generic no-response message. -/
theorem process_input_error_paths (env : PEnv) (input : String)
    (h : env.interruptDuringWait = false) :
    ((process_input env input).response =
      (limit_response_length env.maxWords env.explainKeyword
        (query_grok env.apiKey env.parse400 env.send).result input).1) ∧
    ((query_grok env.apiKey env.parse400 env.send).ok = true →
      (query_grok env.apiKey env.parse400 env.send).violations = []) ∧
    ((query_grok env.apiKey env.parse400 env.send).ok = false →
      (query_grok env.apiKey env.parse400 env.send).violations.length ≤ 1 ∧
      charsHasPre "Error:".toList
        (query_grok env.apiKey env.parse400 env.send).result.toList = true) ∧
    ((env.apiKey == "" || env.apiKey == "your-grok-api-key-here") = true →
      (query_grok env.apiKey env.parse400 env.send).violations.length = 1) ∧
    ((env.apiKey == "" || env.apiKey == "your-grok-api-key-here") = false →
      ∀ att k, runModels env.send model_names none = (att, LoopExit.raised k) →
        (query_grok env.apiKey env.parse400 env.send).violations.length = 1) ∧
    ((env.apiKey == "" || env.apiKey == "your-grok-api-key-here") = false →
      ∀ att st body,
        (runModels env.send model_names none = (att, LoopExit.broke st body) ∨
          runModels env.send model_names none =
            (att, LoopExit.exhausted (some (st, body)))) →
        ((400 ≤ st →
            (query_grok env.apiKey env.parse400 env.send).violations = [] ∧
            (query_grok env.apiKey env.parse400 env.send).result =
              "Error: Could not get response from Grok (no response received)") ∧
          (st < 400 →
            (query_grok env.apiKey env.parse400 env.send).violations.length = 1))) := by
  refine ⟨by simp [process_input, h],
    (query_grok_classified env.apiKey env.parse400 env.send).1,
    (query_grok_classified env.apiKey env.parse400 env.send).2, ?_, ?_, ?_⟩
  · intro hkey
    simp [query_grok, hkey]
  · intro hkey att k hrm
    simp [query_grok, hkey, hrm]
  · intro hkey att st body hor
    constructor
    · intro hge
      have ht : respTruthy st = false := decide_eq_false (by omega)
      rcases hor with hrm | hrm <;> simp [query_grok, hkey, hrm, ht]
    · intro hlt
      have ht : respTruthy st = true := decide_eq_true hlt
      rcases hor with hrm | hrm <;> simp [query_grok, hkey, hrm, ht]

/-- Witness for C9 (amended): with every model answering HTTP 401, the
completion call fails, logs no violation, and returns the generic
no-response message. -/
theorem process_input_error_paths_witness :
    (query_grok "sk-abcdefghijk" (fun _ => none)
      (fun _ => ReqOutcome.resp 401 "unauthorized")).violations = [] ∧
    (query_grok "sk-abcdefghijk" (fun _ => none)
      (fun _ => ReqOutcome.resp 401 "unauthorized")).result =
      "Error: Could not get response from Grok (no response received)" :=
  ((process_input_error_paths
      ⟨false, true, fun _ => .err "x", "sk-abcdefghijk", fun _ => none,
        fun _ => ReqOutcome.resp 401 "unauthorized", 10, "explain"⟩ "hello"
      rfl).2.2.2.2.2 (by decide) model_names 401 "unauthorized"
      (Or.inr (by decide))).1 (by decide)

end WrappedGrok

section Examples
open WrappedGrok
example : (limit_response_length 10 "explain"
    "one two three four five six seven eight nine ten eleven" "what time is it").1
    = "one two three four five six seven eight nine ten" := by decide
example : (limit_response_length 10 "explain"
    "Aa bb cc. dd ee ff gg hh ii. jj kk ll mm" "hi").1
    = "Aa bb cc. dd ee ff gg hh ii." := by decide
example : (limit_response_length 2 "explain" "a b c" "please EXPLAIN it").1 = "a b c" := by decide
example : extract_factual_claims "The moon landing was in 1969. Nice day" =
    ["The moon landing was in 1969"] := by decide
example : extract_factual_claims "hello there" = [] := by decide
example : extract_factual_claims "It is about 40 percent! ok" = ["It is about 40 percent"] := by
  decide
example : buildContext ⟨some ⟨"42", ""⟩, []⟩ = none := by decide
example : buildContext ⟨some ⟨"42", ""⟩, [⟨"t1", "s1"⟩, ⟨"t2", ""⟩]⟩ =
    some "Direct answer: 42 | t1: s1" := by decide
example :
    (runModels (fun m => if m == "grok-3" then .resp 401 "unauthorized" else .resp 200 "hi")
      model_names none).1 = ["grok-3", "grok-beta"] := by decide
example :
    (runModels (fun _ => .resp 400 "model xyz not found") model_names none).1 =
      model_names := by decide
example :
    (query_grok "sk-abcdefghijk" (fun _ => none)
      (fun _ => .resp 400 "model xyz not found")).result =
    "Error: Could not get response from Grok (no response received)" := by decide
example :
    (query_grok "sk-abcdefghijk" (fun _ => none)
      (fun _ => .resp 301 "moved")).result =
    "Error: Grok API returned 301: moved" := by decide
example : chunkWords "a b c d e f g" = ["a b c d e", "f g"] := by decide
example : speakSys ⟨fun t => Nat.ble 2 t, fun _ => 2⟩ "a b c d e f g h i j k l" =
    ⟨["a b c d e"], true, false⟩ := by decide
example : speakSys ⟨fun _ => false, fun _ => 1⟩ "a b c d e f g" =
    ⟨["a b c d e", "f g"], false, false⟩ := by decide
example : runSession startSession [.callbackDetect true, .callbackDetect true, .endSession] =
    ⟨false, true⟩ := by decide
example : risingEdges startSession [.callbackDetect true, .callbackDetect true] = 1 := by decide
end Examples
